import Mathlib

/-!
Verification of the TidyData ML service's multi-collection search layer
(`ml-service/app/storage/qdrant_client.py`, `ml-service/app/api/main.py`,
`ml-service/app/embeddings/image_model.py`).

The HTTP store is modelled as an environment function from the request the
client builds to the outcome of that request (a transport error, or a
response with a status code and an optional parsed body).  Python floats
are modelled as rationals: none of the verified properties depend on
floating-point rounding, only on the order structure of scores.
-/

namespace TidyData

/-- A vector (Python: flat `list[float]` produced by `ndarray.flatten().tolist()`). -/
abbrev Vec := List ℚ

/-- One search hit as the store returns it inside the response's `result`
field: `{id, score, payload}`.  Payload values are opaque to this layer, so
the payload is an association list of string keys to opaque string blobs. -/
structure SearchHit where
  id : String
  score : ℚ
  payload : List (String × String)
deriving DecidableEq

/-- The search request `search_documents` builds and POSTs to
`/collections/{collection}/points/search` (qdrant_client.py:153-173).
The constant `params` field (`hnsw_ef`, `exact`) is the same on every
request and is omitted. -/
structure SearchRequest where
  collection : String
  vector : Vec
  limit : Nat
  score_threshold : ℚ
deriving DecidableEq

/-- Outcome of one HTTP search call: either the request raised
(transport failure — `httpx` exception), or a response arrived with a
status code and, when the body parsed as JSON with a `result` list,
that list (`none` models a body where `response.json()["result"]`
raises). -/
inductive SearchOutcome where
  | transportError
  | response (status : Nat) (result : Option (List SearchHit))
deriving DecidableEq

/-- The store environment: what each request would get back. -/
abbrev StoreEnv := SearchRequest → SearchOutcome

/-- The request constructed in `QdrantClient.search_documents`
(qdrant_client.py:150-165). -/
def mkSearchRequest (collection_name : String) (query_embedding : Vec)
    (limit : Nat) (score_threshold : ℚ) : SearchRequest :=
  { collection := collection_name
    vector := query_embedding
    limit := limit
    score_threshold := score_threshold }

/-- Model of `QdrantClient.search_documents` (qdrant_client.py:131-185).
The whole body is wrapped in `try/except Exception: return []`, so a
transport error yields `[]`; a non-200 status yields `[]`
(qdrant_client.py:178-179); a body whose `result` field cannot be read
raises `KeyError`/JSON errors, caught by the same handler, yielding `[]`.
Otherwise the `result` list is returned as-is. -/
def search_documents (env : StoreEnv) (query_embedding : Vec)
    (collection_name : String) (limit : Nat) (score_threshold : ℚ) :
    List SearchHit :=
  match env (mkSearchRequest collection_name query_embedding limit score_threshold) with
  | .transportError => []
  | .response status result =>
      if status ≠ 200 then []
      else
        match result with
        | some hits => hits
        | none => []

/-- A hit after the orchestrator tagged it with its source collection's
content type (qdrant_client.py:222 mutates the hit dict in place by adding
a `source_type` key; here the tagged hit is a separate record). -/
structure TaggedHit where
  id : String
  score : ℚ
  payload : List (String × String)
  source_type : String
deriving DecidableEq

/-- The in-place tagging of one hit (qdrant_client.py:222):
`result["source_type"] = "text" if collection_name == "documents" else "image"`. -/
def tagHit (collection_name : String) (h : SearchHit) : TaggedHit :=
  { id := h.id
    score := h.score
    payload := h.payload
    source_type := if collection_name = "documents" then "text" else "image" }

/-- The comparison used by the Python sort
`combined_results.sort(key=lambda x: x["score"], reverse=True)`
(qdrant_client.py:226): descending by score.  Python's `list.sort` is
stable, as is `List.mergeSort`, so both produce the same output list. -/
def scoreDesc (a b : TaggedHit) : Bool := decide (b.score ≤ a.score)

/-- The merged, tagged (but not yet sorted or truncated) result list built
in `search_multiple_collections` (qdrant_client.py:203-223): one
`search_documents` call per entry of the `embeddings` dict, then
`zip(embeddings.keys(), results)` and tagging each hit.  The dict is
modelled as an association list in insertion order. -/
def combined_results (env : StoreEnv) (embeddings : List (String × Vec))
    (limit : Nat) (score_threshold : ℚ) : List TaggedHit :=
  let results := embeddings.map fun p =>
    search_documents env p.2 p.1 limit score_threshold
  ((embeddings.map Prod.fst).zip results).flatMap fun p =>
    p.2.map (tagHit p.1)

/-- Model of `QdrantClient.search_multiple_collections` (qdrant_client.py:187-235):
fan out one `search_documents` per collection, tag, merge, sort by score
descending (stable), and truncate to `limit * 2` when longer
(qdrant_client.py:229-230).  Every sub-search fails soft, so the
surrounding `try/except` never fires and is not modelled. -/
def search_multiple_collections (env : StoreEnv)
    (embeddings : List (String × Vec)) (limit : Nat) (score_threshold : ℚ) :
    List TaggedHit :=
  let sorted := (combined_results env embeddings limit score_threshold).mergeSort scoreDesc
  if limit * 2 < sorted.length then sorted.take (limit * 2) else sorted

/-- The two embedding providers as used by `unified_search`
(main.py:189-190): `text_model.get_embeddings` (the sentence-transformer,
model.py:32) and `image_model.get_text_embedding` (the CLIP text encoder,
image_model.py:93).  Both are black-box functions from query text to a
vector. -/
structure Providers where
  get_embeddings : String → Vec
  get_text_embedding : String → Vec

/-- The embeddings dict `unified_search` passes to
`search_multiple_collections` (main.py:192-199): `"documents"` maps to the
text provider's vector, `"images"` to the CLIP text-to-image-space vector. -/
def unified_search_embeddings (p : Providers) (query : String) :
    List (String × Vec) :=
  [("documents", p.get_embeddings query), ("images", p.get_text_embedding query)]

/-- The source-type-dependent `content` projection of a result
(main.py:211-219): text hits expose `payload["text"]`, image hits expose
`payload["metadata"]` and `payload["image_data"]`. -/
inductive Content where
  | text (t : String)
  | image (metadata : String) (image_data : String)
deriving DecidableEq

/-- One entry of the `results` list in the unified search response
(main.py:205-221 / the `UnifiedSearchResult` pydantic model). -/
structure UnifiedSearchResult where
  id : String
  score : ℚ
  source_type : String
  content : Content
deriving DecidableEq

/-- The unified search response body (main.py:223-227).  `time_taken` is a
wall-clock measurement with no functional content and is omitted. -/
structure UnifiedSearchResponse where
  query : String
  results : List UnifiedSearchResult
deriving DecidableEq

/-- Outcome of one request to a FastAPI endpoint: a value, or an
`HTTPException` with a status and detail string. -/
inductive EndpointResult (α : Type) where
  | ok (value : α)
  | httpError (status : Nat) (detail : String)
deriving DecidableEq

/-- Processing of one tagged hit into a response entry (main.py:204-221).
A payload missing the key its source type requires makes the Python dict
lookup raise `KeyError`; that is `none` here. -/
def processResult (r : TaggedHit) : Option UnifiedSearchResult :=
  if r.source_type = "text" then
    match r.payload.lookup "text" with
    | some t => some { id := r.id, score := r.score, source_type := r.source_type,
                       content := .text t }
    | none => none
  else
    match r.payload.lookup "metadata", r.payload.lookup "image_data" with
    | some m, some d => some { id := r.id, score := r.score, source_type := r.source_type,
                               content := .image m d }
    | _, _ => none

/-- The handler `unified_search` behind the search route (main.py:183-230): embed the
query once per provider, run the multi-collection search, project every
surviving hit; any exception inside the handler (in the code, a `KeyError`
from a malformed payload) is caught at main.py:228-230 and reported as an
HTTP 500. -/
def unified_search (env : StoreEnv) (p : Providers) (query : String)
    (limit : Nat) (score_threshold : ℚ) :
    EndpointResult UnifiedSearchResponse :=
  let results := search_multiple_collections env
    (unified_search_embeddings p query) limit score_threshold
  match results.mapM processResult with
  | some processed => .ok { query := query, results := processed }
  | none => .httpError 500 "Error in unified search"

/-- The search requests `unified_search` issues against the store: one per
entry of its `embeddings` dict, each built by `mkSearchRequest` inside
`search_documents`. -/
def unified_search_requests (p : Providers) (query : String) (limit : Nat)
    (score_threshold : ℚ) : List SearchRequest :=
  (unified_search_embeddings p query).map fun e =>
    mkSearchRequest e.1 e.2 limit score_threshold

/-- One point as serialized into the upsert body at qdrant_client.py:103-111:
`{"points": [{"id": ..., "vector": ..., "payload": ...}]}` (always a single
point per request). -/
structure Point where
  id : String
  vector : Vec
  payload : List (String × String)
deriving DecidableEq

/-- Outcome of one HTTP upsert (`PUT .../points`) call. -/
inductive UpsertOutcome where
  | transportError
  | response (status : Nat)
deriving DecidableEq

/-- The store environment for upserts: the outcome each request body
would get. -/
abbrev UpsertEnv := Point → UpsertOutcome

/-- Python dict key assignment `d[k] = v` on an association list: replace
an existing binding in place, else append. -/
def dictInsert (k v : String) (l : List (String × String)) :
    List (String × String) :=
  if l.any fun p => p.1 = k then
    l.map fun p => if p.1 = k then (k, v) else p
  else l ++ [(k, v)]

/-- Instrumented run of one Gateway upsert: the request bodies issued (in
order) and the returned boolean. -/
structure UpsertRun where
  requests : List Point
  result : Bool
deriving DecidableEq

/-- Model of `QdrantClient.add_document` (qdrant_client.py:65-129): build the
payload (`payload = {}` when absent; `payload["text"] = text` when text is
given, qdrant_client.py:96-100), issue exactly one `PUT` of the single
point, and return `response.status_code == 200`
(qdrant_client.py:126); any exception yields `False`
(qdrant_client.py:127-129).  No retry is performed. -/
def add_document (env : UpsertEnv) (document_id : String) (embedding : Vec)
    (text : Option String) (payload : List (String × String)) : UpsertRun :=
  let payload1 := match text with
    | some t => dictInsert "text" t payload
    | none => payload
  let pt : Point := { id := document_id, vector := embedding, payload := payload1 }
  { requests := [pt]
    result := match env pt with
      | .transportError => false
      | .response status => status == 200 }

/-- The document-ingestion handler (main.py:158-181): embed the text,
generate `doc_id = str(uuid.uuid4())` (main.py:164; the fresh identifier is
a parameter here since uuid generation is nondeterministic), store through
the Gateway, and answer with the id on success or an HTTP 500 on failure.
The request body (`DocumentInput`, main.py:80-84) has no id field, so the
HTTP caller cannot choose the id. -/
def api_add_document (env : UpsertEnv) (get_embeddings : String → Vec)
    (fresh_uuid : String) (input_text : String) :
    UpsertRun × EndpointResult String :=
  let embedding := get_embeddings input_text
  let run := add_document env fresh_uuid embedding (some input_text) []
  (run, if run.result then .ok fresh_uuid
        else .httpError 500 "Failed to store document")

/-- Raw image bytes. -/
abbrev ImageBytes := List Nat

/-- Model of `ImageModel._validate_image` (image_model.py:34-44):
`magic.from_buffer(image_data, mime=True).startswith("image/")`.  The
`magic` MIME sniffer is a black-box function from bytes to a MIME string,
passed as `sniff`.  Python's `str.startswith` is prefix-of on the
character sequence, modelled as `List.isPrefixOf` over the strings'
characters. -/
def validate_image (sniff : ImageBytes → String) (image_data : ImageBytes) :
    Bool :=
  "image/".toList.isPrefixOf (sniff image_data).toList

/-- Result of `ImageModel.get_image_embedding`: a vector, or the
synchronously raised `ValueError("Invalid image format")`. -/
inductive ImageEmbedResult where
  | ok (embedding : Vec)
  | validationError (msg : String)
deriving DecidableEq

/-- Model of `ImageModel.get_image_embedding` (image_model.py:60-91): raise
`ValueError("Invalid image format")` when the MIME sniff fails
(image_model.py:73-74), otherwise encode via the CLIP image tower (a
black-box `clip` function covering `_process_image` + the model call). -/
def get_image_embedding (sniff : ImageBytes → String)
    (clip : ImageBytes → Vec) (image_data : ImageBytes) : ImageEmbedResult :=
  if !validate_image sniff image_data then .validationError "Invalid image format"
  else .ok (clip image_data)

/-- The image-ingestion handler (main.py:245-283): embed the image (the
`ValueError` from validation escapes `get_image_embedding`, is caught by
the handler's `except Exception` at main.py:281-283 and surfaced as an
HTTP 500 whose detail is the error message), generate a fresh uuid, store
`{"image_data": <base64>, "metadata": {...}}` through the Gateway, and
answer with the id or an HTTP 500.  `b64` models
`ImageModel.encode_image_base64`; `metadata` stands for the serialized
filename/content-type/description dict (main.py:255-259). -/
def api_add_image (env : UpsertEnv) (sniff : ImageBytes → String)
    (clip : ImageBytes → Vec) (b64 : ImageBytes → String)
    (metadata : String) (fresh_uuid : String) (image_data : ImageBytes) :
    EndpointResult String :=
  match get_image_embedding sniff clip image_data with
  | .validationError msg => .httpError 500 msg
  | .ok embedding =>
      let run := add_document env fresh_uuid embedding none
        [("image_data", b64 image_data), ("metadata", metadata)]
      if run.result then .ok fresh_uuid
      else .httpError 500 "Failed to store image"

/-- The store's replies during collection provisioning: the outcome of the
existence probe `GET /collections/{name}` and of the creation
`PUT /collections/{name}` for each collection name
(qdrant_client.py:40-55). -/
structure InitEnv where
  probe : String → UpsertOutcome
  create : String → UpsertOutcome

/-- One HTTP call `_init_collections` makes against the collections API. -/
inductive StoreCall where
  | getCollection (name : String)
  | putCollection (name : String) (dim : Nat)
deriving DecidableEq

/-- The collection registry `self.collections` (qdrant_client.py:20-23). -/
def registered_collections : List (String × Nat) :=
  [("documents", 384), ("images", 512)]

/-- The calls one iteration of the `_init_collections` loop performs for a
collection (qdrant_client.py:36-63): probe; on 404, create; every outcome
(including the creation failing or either call raising) is logged and
ignored — the per-collection `try/except` at qdrant_client.py:37/62
guarantees the loop always runs to completion. -/
def init_collection_calls (env : InitEnv) (name : String) (dim : Nat) :
    List StoreCall :=
  match env.probe name with
  | .transportError => [.getCollection name]
  | .response status =>
      if status = 404 then [.getCollection name, .putCollection name dim]
      else [.getCollection name]

/-- All calls one run of `_init_collections` performs
(qdrant_client.py:34-63). -/
def init_collections_calls (env : InitEnv) : List StoreCall :=
  registered_collections.flatMap fun p => init_collection_calls env p.1 p.2

/-- The client state relevant to provisioning: the
`_collections_initialized` flag (qdrant_client.py:26, modelled as
`provisioned`) and the accumulated log of collections-API calls made so
far. -/
structure ClientState where
  provisioned : Bool
  calls : List StoreCall
deriving DecidableEq

/-- State at client construction (qdrant_client.py:26): flag false, no
calls made. -/
def initialClientState : ClientState := { provisioned := false, calls := [] }

/-- Model of `QdrantClient.ensure_collections` (qdrant_client.py:28-32): when the
flag is unset, run `_init_collections` (which, by its per-collection
exception handling, always returns normally whatever the store replies)
and then set the flag; when the flag is set, do nothing.  The flag update
does not consult any outcome of `_init_collections`. -/
def ensure_collections (env : InitEnv) (s : ClientState) : ClientState :=
  if s.provisioned then s
  else { provisioned := true, calls := s.calls ++ init_collections_calls env }

/-- A sequence of `ensure_collections` calls, each possibly seeing a
different store behaviour. -/
def run_ensure (envs : List InitEnv) (s : ClientState) : ClientState :=
  envs.foldl (fun st e => ensure_collections e st) s

/-- An outcome on which `search_documents` fails soft: the request raised,
or the response status was not 200. -/
def searchCallFails (o : SearchOutcome) : Prop :=
  o = .transportError ∨ ∃ s r, o = .response s r ∧ s ≠ 200

end TidyData

namespace TidyData

/-! ### Helper lemmas -/

theorem search_documents_of_ok {env : StoreEnv} {v : Vec} {c : String}
    {limit : Nat} {θ : ℚ} {hits : List SearchHit}
    (h : env (mkSearchRequest c v limit θ) = .response 200 (some hits)) :
    search_documents env v c limit θ = hits := by
  unfold search_documents
  rw [h]
  simp

theorem search_documents_of_fails {env : StoreEnv} {v : Vec} {c : String}
    {limit : Nat} {θ : ℚ}
    (h : searchCallFails (env (mkSearchRequest c v limit θ))) :
    search_documents env v c limit θ = [] := by
  unfold search_documents
  rcases h with h | ⟨s, r, h, hs⟩
  · rw [h]
  · rw [h]
    simp [hs]

theorem search_documents_congr {env env' : StoreEnv} (v : Vec) (c : String)
    (limit : Nat) (θ : ℚ)
    (h : env (mkSearchRequest c v limit θ) = env' (mkSearchRequest c v limit θ)) :
    search_documents env v c limit θ = search_documents env' v c limit θ := by
  unfold search_documents
  rw [h]

theorem combined_results_two (env : StoreEnv) (vd vi : Vec) (limit : Nat)
    (θ : ℚ) :
    combined_results env [("documents", vd), ("images", vi)] limit θ =
      (search_documents env vd "documents" limit θ).map (tagHit "documents") ++
      (search_documents env vi "images" limit θ).map (tagHit "images") := by
  simp [combined_results]

theorem scoreDesc_trans (a b c : TaggedHit) (h₁ : scoreDesc a b)
    (h₂ : scoreDesc b c) : scoreDesc a c := by
  simp only [scoreDesc, decide_eq_true_eq] at *
  exact le_trans h₂ h₁

theorem scoreDesc_total (a b : TaggedHit) : scoreDesc a b || scoreDesc b a := by
  simp only [scoreDesc, Bool.or_eq_true, decide_eq_true_eq]
  exact le_total b.score a.score

theorem mapM_option_eq_some_iff {α β : Type} {f : α → Option β} :
    ∀ {l : List α} {out : List β},
      l.mapM f = some out ↔ List.Forall₂ (fun a b => f a = some b) l out := by
  intro l
  induction l with
  | nil =>
      intro out
      simp only [List.mapM_nil]
      constructor
      · intro h
        cases h
        exact List.Forall₂.nil
      · intro h
        cases h
        rfl
  | cons a l ih =>
      intro out
      simp only [List.mapM_cons]
      constructor
      · intro h
        cases hfa : f a with
        | none => rw [hfa] at h; cases h
        | some b =>
            rw [hfa] at h
            cases hrest : l.mapM f with
            | none => rw [hrest] at h; cases h
            | some bs =>
                rw [hrest] at h
                cases h
                exact List.Forall₂.cons hfa (ih.mp hrest)
      · intro h
        cases h with
        | cons hab hrest =>
            rw [hab, ih.mpr hrest]
            rfl

theorem forall₂_perm_left {α β : Type} {R : α → β → Prop} :
    ∀ {l l' : List α}, l.Perm l' → ∀ {out : List β}, List.Forall₂ R l out →
      ∃ out', List.Forall₂ R l' out' ∧ out.Perm out' := by
  intro l l' hp
  induction hp with
  | nil =>
      intro out h
      cases h
      exact ⟨[], List.Forall₂.nil, List.Perm.refl _⟩
  | cons x hp ih =>
      intro out h
      cases h with
      | cons hxb hrest =>
          obtain ⟨out', hf, hperm⟩ := ih hrest
          exact ⟨_ :: out', List.Forall₂.cons hxb hf, List.Perm.cons _ hperm⟩
  | swap x y l =>
      intro out h
      cases h with
      | cons hyb hrest =>
          cases hrest with
          | cons hxc hrest₂ =>
              exact ⟨_ :: _ :: _, List.Forall₂.cons hxc (List.Forall₂.cons hyb hrest₂),
                List.Perm.swap _ _ _⟩
  | trans hp₁ hp₂ ih₁ ih₂ =>
      intro out h
      obtain ⟨out₁, hf₁, hperm₁⟩ := ih₁ h
      obtain ⟨out₂, hf₂, hperm₂⟩ := ih₂ hf₁
      exact ⟨out₂, hf₂, hperm₁.trans hperm₂⟩

theorem mapM_option_perm {α β : Type} {f : α → Option β} {l l' : List α}
    {out : List β} (hp : l.Perm l') (h : l.mapM f = some out) :
    ∃ out', l'.mapM f = some out' ∧ out.Perm out' := by
  obtain ⟨out', hf, hperm⟩ := forall₂_perm_left hp (mapM_option_eq_some_iff.mp h)
  exact ⟨out', mapM_option_eq_some_iff.mpr hf, hperm⟩

theorem run_ensure_of_provisioned (envs : List InitEnv) (s : ClientState)
    (h : s.provisioned = true) : run_ensure envs s = s := by
  induction envs with
  | nil => rfl
  | cons e es ih =>
      show run_ensure es (ensure_collections e s) = s
      rw [ensure_collections, if_pos h]
      exact ih

/-- The orchestrator's core applied to whatever combined list the fan-out
produced: when the combined list fits the `2 × limit` allowance and every
hit projects, `unified_search` answers `ok` with a projection of a
permutation (the stable sort) of the combined list. -/
theorem unified_search_of_combined (env : StoreEnv) (p : Providers)
    (query : String) (limit : Nat) (θ : ℚ)
    (expected : List UnifiedSearchResult)
    (hlen : (combined_results env (unified_search_embeddings p query) limit θ).length
      ≤ limit * 2)
    (hwf : (combined_results env (unified_search_embeddings p query) limit θ).mapM
      processResult = some expected) :
    ∃ results, unified_search env p query limit θ =
        .ok { query := query, results := results } ∧
      results.length =
        (combined_results env (unified_search_embeddings p query) limit θ).length ∧
      results.Perm expected := by
  set merged := combined_results env (unified_search_embeddings p query) limit θ with hm
  have hsorted : search_multiple_collections env (unified_search_embeddings p query) limit θ
      = merged.mergeSort scoreDesc := by
    unfold search_multiple_collections
    rw [← hm, if_neg]
    simp only [List.length_mergeSort]
    omega
  have hperm : merged.Perm (merged.mergeSort scoreDesc) :=
    (List.mergeSort_perm merged scoreDesc).symm
  obtain ⟨out, hout, hpermout⟩ := mapM_option_perm hperm hwf
  refine ⟨out, ?_, ?_, ?_⟩
  · unfold unified_search
    rw [hsorted]
    simp only [hout]
  · have h₁ := (mapM_option_eq_some_iff.mp hout).length_eq
    rw [← h₁, List.length_mergeSort]
  · exact hpermout.symm

end TidyData

namespace TidyData

/-- Claim C1: For every collection name, query vector, limit and score
threshold, if the search request suffers a transport error or receives a
non-2xx response, `search_documents` returns the empty sequence (and, being
a total function of the outcome, never raises). -/
theorem search_documents_fail_soft (env : StoreEnv) (v : Vec) (c : String)
    (limit : Nat) (θ : ℚ)
    (h : env (mkSearchRequest c v limit θ) = .transportError ∨
         ∃ s r, env (mkSearchRequest c v limit θ) = .response s r ∧
           (s < 200 ∨ 300 ≤ s)) :
    search_documents env v c limit θ = [] := by
  unfold search_documents
  rcases h with h | ⟨s, r, h, hs⟩
  · rw [h]
  · rw [h]
    have : s ≠ 200 := by omega
    simp [this]

/-- Concrete instance of `search_documents_fail_soft`: an unreachable store. -/
theorem search_documents_fail_soft_witness :
    search_documents (fun _ => SearchOutcome.transportError) [] "documents" 10 0 = [] :=
  search_documents_fail_soft _ _ _ _ _ (Or.inl rfl)

/-- Claim C10: After the first `ensure_collections` call completes, the
initialized flag is true and remains true for the life of the client
(under any further sequence of calls, whatever the store replies), and the
collections-API calls ever made are exactly those of the first run of
`_init_collections` — provisioning is attempted at most once per process,
even when every creation attempt failed. -/
theorem ensure_collections_at_most_once (env0 : InitEnv) (envs : List InitEnv) :
    (ensure_collections env0 initialClientState).provisioned = true ∧
    (run_ensure envs (ensure_collections env0 initialClientState)).provisioned = true ∧
    (run_ensure envs (ensure_collections env0 initialClientState)).calls =
      init_collections_calls env0 := by
  have h1 : ensure_collections env0 initialClientState =
      { provisioned := true, calls := init_collections_calls env0 } := by
    rw [ensure_collections, if_neg]
    · simp [initialClientState]
    · simp [initialClientState]
  rw [h1, run_ensure_of_provisioned _ _ rfl]
  exact ⟨rfl, rfl, rfl⟩

/-- Claim C8 counterexample: The claim says `add_document` returns true
exactly when the store answers with a 200-class (2xx) status.  At status
201 — a 2xx status — the Gateway returns `false`, because the code tests
`response.status_code == 200` (qdrant_client.py:126). -/
theorem add_document_2xx_counterexample :
    (200 ≤ 201 ∧ 201 < 300) ∧
    (add_document (fun _ => UpsertOutcome.response 201) "doc-1" [] none []).result
      = false := by
  exact ⟨⟨by omega, by omega⟩, rfl⟩

/-- Claim C8 amended: For every upsert through the Gateway, `add_document`
returns true exactly when the store responds with status exactly 200,
returns false otherwise (including on transport errors), and issues
exactly one upsert request (no retry). -/
theorem add_document_success_iff (env : UpsertEnv) (document_id : String)
    (embedding : Vec) (text : Option String)
    (payload : List (String × String)) :
    (add_document env document_id embedding text payload).requests.length = 1 ∧
    ∀ pt ∈ (add_document env document_id embedding text payload).requests,
      ((add_document env document_id embedding text payload).result = true ↔
        env pt = .response 200) := by
  constructor
  · rfl
  · intro pt hpt
    unfold add_document at hpt ⊢
    simp only [List.mem_singleton] at hpt
    subst hpt
    cases h : env _ with
    | transportError => simp [h]
    | response status =>
        simp only [h]
        constructor
        · intro hs
          simp only [beq_iff_eq] at hs
          rw [hs]
        · intro hs
          cases hs
          rfl

/-- Concrete instance of `add_document_success_iff`: against a store
answering 200 the (single) issued upsert succeeds. -/
theorem add_document_success_iff_witness :
    (add_document (fun _ => UpsertOutcome.response 200) "doc-1" [] none
      []).result = true :=
  ((add_document_success_iff (fun _ => UpsertOutcome.response 200) "doc-1" []
      none []).2
    { id := "doc-1", vector := [], payload := [] } (by decide)).mpr rfl

/-- Claim C7 counterexample: The claim says the Gateway issues the point's
id itself rather than storing an id chosen by its caller.  In the code the
Gateway (`QdrantClient.add_document`) upserts under exactly the
`document_id` its caller passes (qdrant_client.py:106): with two different
caller-chosen ids the stored ids are those two caller-chosen strings. -/
theorem add_document_stores_caller_id :
    (add_document (fun _ => UpsertOutcome.response 200) "caller-chosen-id" []
        none []).requests.map Point.id = ["caller-chosen-id"] ∧
    (add_document (fun _ => UpsertOutcome.response 200) "another-id" []
        none []).requests.map Point.id = ["another-id"] :=
  ⟨rfl, rfl⟩

/-- Claim C7 amended: It is the API layer, not the Gateway, that issues the
fresh id: the `POST /documents` handler generates `str(uuid.uuid4())`
(main.py:164) and the point upserted carries exactly that id, whatever the
document text; on success the same id is echoed back.  The request schema
(`DocumentInput`) has no id field, so the external HTTP caller never
chooses the id. -/
theorem api_add_document_issues_fresh_id (env : UpsertEnv)
    (get_embeddings : String → Vec) (fresh_uuid input_text : String) :
    (api_add_document env get_embeddings fresh_uuid input_text).1.requests.map
        Point.id = [fresh_uuid] ∧
    ((api_add_document env get_embeddings fresh_uuid input_text).1.result = true →
      (api_add_document env get_embeddings fresh_uuid input_text).2
        = .ok fresh_uuid) := by
  constructor
  · rfl
  · intro h
    simp only [api_add_document] at h ⊢
    rw [if_pos h]

/-- Concrete instance of `api_add_document_issues_fresh_id`: a successful
store echoes the generated id. -/
theorem api_add_document_issues_fresh_id_witness :
    (api_add_document (fun _ => UpsertOutcome.response 200) (fun _ => [])
      "3f2c-fresh" "hello").2 = .ok "3f2c-fresh" :=
  (api_add_document_issues_fresh_id _ _ _ _).2 rfl

/-- Claim C9: For every byte string submitted as an image,
`get_image_embedding` raises the validation error exactly when the sniffed
MIME type does not start with `image/`; and in that case the `POST /images`
handler surfaces it to the caller as an HTTP error carrying the message
rather than swallowing it. -/
theorem image_validation_error_iff (sniff : ImageBytes → String)
    (clip : ImageBytes → Vec) (image_data : ImageBytes) :
    ((∃ msg, get_image_embedding sniff clip image_data = .validationError msg) ↔
      "image/".toList.isPrefixOf (sniff image_data).toList = false) ∧
    ("image/".toList.isPrefixOf (sniff image_data).toList = false →
      ∀ (env : UpsertEnv) (b64 : ImageBytes → String) (metadata fresh_uuid : String),
        api_add_image env sniff clip b64 metadata fresh_uuid image_data =
          .httpError 500 "Invalid image format") := by
  have hv : ∀ h : "image/".toList.isPrefixOf (sniff image_data).toList = false,
      get_image_embedding sniff clip image_data =
        .validationError "Invalid image format" := by
    intro h
    unfold get_image_embedding validate_image
    rw [h]
    rfl
  constructor
  · constructor
    · rintro ⟨msg, hmsg⟩
      unfold get_image_embedding validate_image at hmsg
      cases h : "image/".toList.isPrefixOf (sniff image_data).toList with
      | false => rfl
      | true => rw [h] at hmsg; simp at hmsg
    · intro h
      exact ⟨"Invalid image format", hv h⟩
  · intro h env b64 metadata fresh_uuid
    unfold api_add_image
    rw [hv h]

/-- Concrete instance of `image_validation_error_iff`: bytes sniffed as
`text/plain` are rejected with the validation error at the endpoint. -/
theorem image_validation_error_iff_witness :
    api_add_image (fun _ => UpsertOutcome.response 200) (fun _ => "text/plain")
        (fun _ => []) (fun _ => "") "meta" "u-1" [] =
      .httpError 500 "Invalid image format" :=
  (image_validation_error_iff (fun _ => "text/plain") (fun _ => []) []).2
    (by decide) (fun _ => UpsertOutcome.response 200) (fun _ => "")
    "meta" "u-1"

/-- Claim C6: For every unified search query, the request against the
`documents` collection carries the text provider's embedding of the query
and the request against the `images` collection carries the image
provider's own text-embedding of the query (the text-to-image-space
encoder); moreover these two requests are the only points at which
`unified_search` consults the store, so its answer is fully determined by
the store's replies to them. -/
theorem unified_search_provider_routing (p : Providers) (query : String)
    (limit : Nat) (θ : ℚ) :
    unified_search_requests p query limit θ =
      [mkSearchRequest "documents" (p.get_embeddings query) limit θ,
       mkSearchRequest "images" (p.get_text_embedding query) limit θ] ∧
    ∀ env env' : StoreEnv,
      (∀ r ∈ unified_search_requests p query limit θ, env r = env' r) →
      unified_search env p query limit θ = unified_search env' p query limit θ := by
  constructor
  · rfl
  · intro env env' hagree
    have h1 := hagree (mkSearchRequest "documents" (p.get_embeddings query) limit θ)
      (by simp [unified_search_requests, unified_search_embeddings])
    have h2 := hagree (mkSearchRequest "images" (p.get_text_embedding query) limit θ)
      (by simp [unified_search_requests, unified_search_embeddings])
    have hc : combined_results env (unified_search_embeddings p query) limit θ =
        combined_results env' (unified_search_embeddings p query) limit θ := by
      simp only [unified_search_embeddings]
      rw [combined_results_two, combined_results_two,
        search_documents_congr _ _ _ _ h1, search_documents_congr _ _ _ _ h2]
    unfold unified_search search_multiple_collections
    rw [hc]

/-- Concrete instance of `unified_search_provider_routing`: two stores that
agree on the issued requests (both refuse them) but differ elsewhere give
the same unified answer. -/
theorem unified_search_provider_routing_witness :
    unified_search (fun _ => SearchOutcome.transportError)
        ⟨fun _ => [(1 : ℚ)], fun _ => [(2 : ℚ)]⟩ "q" 10 0 =
      unified_search (fun r => if r.limit = 10 then SearchOutcome.transportError
          else SearchOutcome.response 200 (some []))
        ⟨fun _ => [(1 : ℚ)], fun _ => [(2 : ℚ)]⟩ "q" 10 0 := by
  apply (unified_search_provider_routing ⟨fun _ => [(1 : ℚ)], fun _ => [(2 : ℚ)]⟩
    "q" 10 0).2
  intro r hr
  simp only [unified_search_requests, unified_search_embeddings, mkSearchRequest,
    List.map_cons, List.map_nil, List.mem_cons, List.not_mem_nil, or_false] at hr
  rcases hr with h | h <;> subst h <;> rfl

/-- Claim C4: For every unified search, the final merged list is truncated to
at most `2 × limit` entries; in particular with `limit = 10` and 30
qualifying hits across the collections, exactly 20 entries are returned. -/
theorem search_multiple_collections_truncates (env : StoreEnv)
    (embeddings : List (String × Vec)) (limit : Nat) (θ : ℚ) :
    (search_multiple_collections env embeddings limit θ).length ≤ limit * 2 ∧
    (limit = 10 → (combined_results env embeddings limit θ).length = 30 →
      (search_multiple_collections env embeddings limit θ).length = 20) := by
  constructor
  · unfold search_multiple_collections
    by_cases h : limit * 2 <
        ((combined_results env embeddings limit θ).mergeSort scoreDesc).length
    · rw [if_pos h]
      simp only [List.length_take]
      omega
    · rw [if_neg h]
      omega
  · intro hlimit hcomb
    subst hlimit
    unfold search_multiple_collections
    rw [if_pos]
    · simp only [List.length_take, List.length_mergeSort, hcomb]
      omega
    · simp only [List.length_mergeSort, hcomb]
      omega

/-- Concrete instance of `search_multiple_collections_truncates`: both
collections answer 15 qualifying hits each (30 total) under `limit = 10`;
exactly 20 survive. -/
theorem search_multiple_collections_truncates_witness :
    (search_multiple_collections
      (fun _ => SearchOutcome.response 200
        (some (List.replicate 15 { id := "x", score := 0, payload := [] })))
      [("documents", []), ("images", [])] 10 0).length = 20 :=
  (search_multiple_collections_truncates _ _ _ _).2 rfl (by decide)

/-- Claim C3: For every unified search over two healthy collections where
`documents` contributes `m` hits and `images` contributes `n` hits with
`m + n ≤ 2 × limit`, the merged list has exactly `m + n` entries, is
sorted by score descending, is (as a multiset) exactly the hits each
tagged with its collection's source type (`text` for `documents`, `image`
for `images`, per `tagHit`), and entries with equal scores are left in the
stable order of collection iteration (the filter at every score level is
unchanged by the sort). -/
theorem search_multiple_collections_merges_and_sorts (env : StoreEnv)
    (vd vi : Vec) (limit : Nat) (θ : ℚ) (docHits imgHits : List SearchHit)
    (hD : env (mkSearchRequest "documents" vd limit θ) = .response 200 (some docHits))
    (hI : env (mkSearchRequest "images" vi limit θ) = .response 200 (some imgHits))
    (hlen : docHits.length + imgHits.length ≤ limit * 2) :
    (search_multiple_collections env [("documents", vd), ("images", vi)] limit
        θ).length = docHits.length + imgHits.length ∧
    List.Pairwise (fun a b : TaggedHit => b.score ≤ a.score)
      (search_multiple_collections env [("documents", vd), ("images", vi)] limit θ) ∧
    (search_multiple_collections env [("documents", vd), ("images", vi)] limit
        θ).Perm
      (docHits.map (tagHit "documents") ++ imgHits.map (tagHit "images")) ∧
    ∀ s : ℚ,
      (search_multiple_collections env [("documents", vd), ("images", vi)] limit
          θ).filter (fun h => decide (h.score = s)) =
        (docHits.map (tagHit "documents") ++
          imgHits.map (tagHit "images")).filter (fun h => decide (h.score = s)) := by
  have hmerged : combined_results env [("documents", vd), ("images", vi)] limit θ =
      docHits.map (tagHit "documents") ++ imgHits.map (tagHit "images") := by
    rw [combined_results_two, search_documents_of_ok hD, search_documents_of_ok hI]
  have hmlen : (docHits.map (tagHit "documents") ++
      imgHits.map (tagHit "images")).length = docHits.length + imgHits.length := by
    simp
  have hout : search_multiple_collections env [("documents", vd), ("images", vi)]
      limit θ = (docHits.map (tagHit "documents") ++
        imgHits.map (tagHit "images")).mergeSort scoreDesc := by
    unfold search_multiple_collections
    rw [hmerged, if_neg]
    rw [List.length_mergeSort, hmlen]
    omega
  refine ⟨?_, ?_, ?_, ?_⟩
  · rw [hout, List.length_mergeSort, hmlen]
  · rw [hout]
    exact (List.sorted_mergeSort scoreDesc_trans scoreDesc_total _).imp
      fun hab => of_decide_eq_true hab
  · rw [hout]
    exact List.mergeSort_perm _ scoreDesc
  · intro s
    rw [hout]
    have hsame : ∀ x ∈ (docHits.map (tagHit "documents") ++
        imgHits.map (tagHit "images")).filter (fun h => decide (h.score = s)),
        x.score = s := by
      intro x hx
      have := (List.mem_filter.mp hx).2
      simpa using this
    have hsub : List.Sublist
        ((docHits.map (tagHit "documents") ++
          imgHits.map (tagHit "images")).filter (fun h => decide (h.score = s)))
        ((docHits.map (tagHit "documents") ++
          imgHits.map (tagHit "images")).mergeSort scoreDesc) := by
      apply List.sublist_mergeSort scoreDesc_trans scoreDesc_total
      · apply List.pairwise_of_forall_mem_list
        intro a ha b hb
        have ha' := hsame a ha
        have hb' := hsame b hb
        simp [scoreDesc, ha', hb']
      · exact List.filter_sublist _
    have hsub2 : List.Sublist
        ((docHits.map (tagHit "documents") ++
          imgHits.map (tagHit "images")).filter (fun h => decide (h.score = s)))
        (((docHits.map (tagHit "documents") ++
          imgHits.map (tagHit "images")).mergeSort scoreDesc).filter
            (fun h => decide (h.score = s))) := by
      have h₁ := hsub.filter (fun h => decide (h.score = s))
      rwa [List.filter_eq_self.mpr (fun a ha => (List.mem_filter.mp ha).2)] at h₁
    have hlens : (((docHits.map (tagHit "documents") ++
        imgHits.map (tagHit "images")).mergeSort scoreDesc).filter
          (fun h => decide (h.score = s))).length =
        ((docHits.map (tagHit "documents") ++
          imgHits.map (tagHit "images")).filter
            (fun h => decide (h.score = s))).length :=
      ((List.mergeSort_perm _ scoreDesc).filter _).length_eq
    exact (hsub2.eq_of_length hlens.symm).symm

/-- Concrete instance of `search_multiple_collections_merges_and_sorts`:
`documents` answers two hits (scores 1/2 and 3/4), `images` one hit
(score 9/10); the merged output has three entries sorted descending. -/
theorem search_multiple_collections_merges_and_sorts_witness :
    (search_multiple_collections
        (fun r => if r.collection = "documents" then
            SearchOutcome.response 200
              (some [{ id := "d1", score := 1/2, payload := [] },
                     { id := "d2", score := 3/4, payload := [] }])
          else
            SearchOutcome.response 200
              (some [{ id := "i1", score := 9/10, payload := [] }]))
        [("documents", []), ("images", [])] 10 0).length = 3 ∧
    List.Pairwise (fun a b : TaggedHit => b.score ≤ a.score)
      (search_multiple_collections
        (fun r => if r.collection = "documents" then
            SearchOutcome.response 200
              (some [{ id := "d1", score := 1/2, payload := [] },
                     { id := "d2", score := 3/4, payload := [] }])
          else
            SearchOutcome.response 200
              (some [{ id := "i1", score := 9/10, payload := [] }]))
        [("documents", []), ("images", [])] 10 0) := by
  have h := search_multiple_collections_merges_and_sorts
    (fun r => if r.collection = "documents" then
        SearchOutcome.response 200
          (some [{ id := "d1", score := 1/2, payload := [] },
                 { id := "d2", score := 3/4, payload := [] }])
      else
        SearchOutcome.response 200
          (some [{ id := "i1", score := 9/10, payload := [] }]))
    [] [] 10 0
    [{ id := "d1", score := 1/2, payload := [] },
     { id := "d2", score := 3/4, payload := [] }]
    [{ id := "i1", score := 9/10, payload := [] }]
    (by rfl) (by rfl) (by decide)
  exact ⟨h.1, h.2.1⟩

/-- Claim C2: For every unified search in which one collection's search
fails soft and the other succeeds with `N` hits (each projecting to a
response entry), the endpoint answers `ok` with exactly those `N` hits
(as a multiset — the sort only reorders them) and no error; and when every
collection's search fails, it answers `ok` with a well-formed empty result
list rather than an error. -/
theorem unified_search_partial_failure (env : StoreEnv) (p : Providers)
    (query : String) (limit : Nat) (θ : ℚ) :
    (∀ (hits : List SearchHit) (expected : List UnifiedSearchResult),
      env (mkSearchRequest "documents" (p.get_embeddings query) limit θ)
        = .response 200 (some hits) →
      searchCallFails
        (env (mkSearchRequest "images" (p.get_text_embedding query) limit θ)) →
      hits.length ≤ limit * 2 →
      (hits.map (tagHit "documents")).mapM processResult = some expected →
      ∃ results, unified_search env p query limit θ =
          .ok { query := query, results := results } ∧
        results.length = hits.length ∧ results.Perm expected) ∧
    (∀ (hits : List SearchHit) (expected : List UnifiedSearchResult),
      searchCallFails
        (env (mkSearchRequest "documents" (p.get_embeddings query) limit θ)) →
      env (mkSearchRequest "images" (p.get_text_embedding query) limit θ)
        = .response 200 (some hits) →
      hits.length ≤ limit * 2 →
      (hits.map (tagHit "images")).mapM processResult = some expected →
      ∃ results, unified_search env p query limit θ =
          .ok { query := query, results := results } ∧
        results.length = hits.length ∧ results.Perm expected) ∧
    (searchCallFails
        (env (mkSearchRequest "documents" (p.get_embeddings query) limit θ)) →
     searchCallFails
        (env (mkSearchRequest "images" (p.get_text_embedding query) limit θ)) →
     unified_search env p query limit θ = .ok { query := query, results := [] }) := by
  refine ⟨?_, ?_, ?_⟩
  · intro hits expected hD hI hlen hwf
    have hmerged : combined_results env (unified_search_embeddings p query) limit θ =
        hits.map (tagHit "documents") := by
      simp only [unified_search_embeddings]
      rw [combined_results_two, search_documents_of_ok hD,
        search_documents_of_fails hI]
      simp
    obtain ⟨results, hok, hlen', hperm⟩ := unified_search_of_combined env p query
      limit θ expected
      (by rw [hmerged, List.length_map]; exact hlen)
      (by rw [hmerged]; exact hwf)
    exact ⟨results, hok, by rw [hlen', hmerged, List.length_map], hperm⟩
  · intro hits expected hD hI hlen hwf
    have hmerged : combined_results env (unified_search_embeddings p query) limit θ =
        hits.map (tagHit "images") := by
      simp only [unified_search_embeddings]
      rw [combined_results_two, search_documents_of_fails hD,
        search_documents_of_ok hI]
      simp
    obtain ⟨results, hok, hlen', hperm⟩ := unified_search_of_combined env p query
      limit θ expected
      (by rw [hmerged, List.length_map]; exact hlen)
      (by rw [hmerged]; exact hwf)
    exact ⟨results, hok, by rw [hlen', hmerged, List.length_map], hperm⟩
  · intro hD hI
    have hmerged : combined_results env (unified_search_embeddings p query) limit θ =
        [] := by
      simp only [unified_search_embeddings]
      rw [combined_results_two, search_documents_of_fails hD,
        search_documents_of_fails hI]
      simp
    obtain ⟨results, hok, hlen', hperm⟩ := unified_search_of_combined env p query
      limit θ [] (by rw [hmerged]; simp) (by rw [hmerged]; rfl)
    have hnil : results = [] := hperm.eq_nil
    rw [hnil] at hok
    exact hok

/-- Concrete instance of `unified_search_partial_failure`: `documents`
answers one hit while `images` is unreachable and the endpoint returns
exactly that hit; with every collection unreachable it still answers `ok`
with the empty list. -/
theorem unified_search_partial_failure_witness :
    (∃ results, unified_search
        (fun r => if r.collection = "documents" then
            SearchOutcome.response 200
              (some [{ id := "d1", score := 1/2, payload := [("text", "hello")] }])
          else SearchOutcome.transportError)
        ⟨fun _ => [], fun _ => []⟩ "q" 10 0 =
          .ok { query := "q", results := results } ∧
      results.length = 1 ∧
      results.Perm [{ id := "d1", score := 1/2, source_type := "text",
                      content := .text "hello" }]) ∧
    unified_search (fun _ => SearchOutcome.transportError)
      ⟨fun _ => [], fun _ => []⟩ "q" 10 0 = .ok { query := "q", results := [] } := by
  constructor
  · exact (unified_search_partial_failure
      (fun r => if r.collection = "documents" then
          SearchOutcome.response 200
            (some [{ id := "d1", score := 1/2, payload := [("text", "hello")] }])
        else SearchOutcome.transportError)
      ⟨fun _ => [], fun _ => []⟩ "q" 10 0).1
      [{ id := "d1", score := 1/2, payload := [("text", "hello")] }]
      [{ id := "d1", score := 1/2, source_type := "text", content := .text "hello" }]
      (by rfl) (Or.inl (by rfl)) (by decide) (by rfl)
  · exact (unified_search_partial_failure
      (fun _ => SearchOutcome.transportError)
      ⟨fun _ => [], fun _ => []⟩ "q" 10 0).2.2 (Or.inl rfl) (Or.inl rfl)

end TidyData
